import Mathlib

/-!
Verification development for the show-time-aws relay backend.

The backend is an Express/Socket.IO relay. Its handlers are embedded here as
pure functions: AWS SDK calls (DynamoDB put, S3 headObject, S3 getSignedUrl)
are passed in as oracle arguments describing the provider outcome, and the
side effects of a handler (HTTP response fields, persisted items, scheduled
broadcasts, socket emissions, log lines) are returned as explicit data.
Object-storage keys are modelled as lists of characters.
-/

namespace ShowTime

/-- Object-storage keys and file names, modelled as lists of characters. -/
abbrev Key := List Char

/-- The fixed key suffix enforced by the backend (".nii.gz"). -/
def niiGz : Key := ".nii.gz".toList

/-- The replacement suffix used to derive blurred keys ("_blurred.nii.gz"). -/
def blurredRepl : Key := "_blurred.nii.gz".toList

/-- JS `s.replace(/\.nii\.gz$/, repl)`: the regex is anchored at the end of
the string, so if `s` ends with ".nii.gz" that terminal occurrence is replaced
with `repl`; otherwise `s` is returned unchanged. -/
def replaceNiiGzEnd (s : Key) (repl : Key) : Key :=
  if niiGz <:+ s then s.take (s.length - niiGz.length) ++ repl else s

/-- A DynamoDB item as built by POST /store-time: `{ id, timestamp }`. -/
structure TimestampItem where
  id : String
  timestamp : String
deriving DecidableEq, Repr

/-- Observable outcome of one POST /store-time request: the HTTP status, the
JSON body fields, the item persisted to DynamoDB (none when the put failed),
and the delayed `time-ready` broadcast scheduled by `setTimeout`
(delay in milliseconds paired with the `time` payload; none when skipped). -/
structure StoreTimeResult where
  status : Nat
  bodyStatus : Option String
  bodyTime : Option String
  errorBody : Option String
  persisted : Option TimestampItem
  scheduledBroadcast : Option (Nat × String)
deriving DecidableEq, Repr

/-- POST /store-time (src/backend/index.js lines 208-233): capture `time` and
`id`, attempt `dynamoDb.put`; on failure return 500 with an error body and do
not schedule anything; on success schedule an `io.emit` of time-ready carrying
`time` after 5000 ms and respond with status ok and `time`. `putOk` is the
oracle for the DynamoDB put outcome. -/
def storeTime (now id : String) (putOk : Bool) : StoreTimeResult :=
  let item : TimestampItem := { id := id, timestamp := now }
  if putOk then
    { status := 200
      bodyStatus := some "ok"
      bodyTime := some now
      errorBody := none
      persisted := some item
      scheduledBroadcast := some (5000, now) }
  else
    { status := 500
      bodyStatus := none
      bodyTime := none
      errorBody := some "Failed to save to DynamoDB"
      persisted := none
      scheduledBroadcast := none }

/-- C1: For every POST /store-time call in which the DynamoDB put succeeds,
the response body's time, the persisted item's timestamp, and the time carried
by the scheduled time-ready broadcast are all the same string, and the
broadcast is scheduled with the fixed 5000 ms delay, which is nonzero, so it
is never delivered immediately. -/
theorem storeTime_success_time_consistent (now id : String) (putOk : Bool)
    (h : putOk = true) :
    (storeTime now id putOk).bodyTime = some now ∧
    (storeTime now id putOk).persisted = some { id := id, timestamp := now } ∧
    (storeTime now id putOk).scheduledBroadcast = some (5000, now) ∧
    (∀ d t, (storeTime now id putOk).scheduledBroadcast = some (d, t) →
      t = now ∧ d = 5000 ∧ d ≠ 0) := by
  subst h
  refine ⟨rfl, rfl, rfl, ?_⟩
  intro d t hdt
  simp [storeTime] at hdt
  exact ⟨hdt.2.symm, hdt.1.symm, by omega⟩

/-- Witness for C1 at a concrete input. -/
theorem storeTime_success_time_consistent_witness :
    (true = true) ∧
    ((storeTime "2024-01-01T00:00:00.000Z" "id-1" true).bodyTime =
        some "2024-01-01T00:00:00.000Z" ∧
    (storeTime "2024-01-01T00:00:00.000Z" "id-1" true).persisted =
        some { id := "id-1", timestamp := "2024-01-01T00:00:00.000Z" } ∧
    (storeTime "2024-01-01T00:00:00.000Z" "id-1" true).scheduledBroadcast =
        some (5000, "2024-01-01T00:00:00.000Z") ∧
    (∀ d t, (storeTime "2024-01-01T00:00:00.000Z" "id-1" true).scheduledBroadcast
        = some (d, t) → t = "2024-01-01T00:00:00.000Z" ∧ d = 5000 ∧ d ≠ 0)) :=
  ⟨rfl, storeTime_success_time_consistent "2024-01-01T00:00:00.000Z" "id-1" true rfl⟩

/-- C2: For every POST /store-time call in which the DynamoDB put fails, the
caller receives a 5xx response carrying an error body, nothing is recorded as
persisted, and no time-ready broadcast is scheduled. -/
theorem storeTime_failure_no_broadcast (now id : String) (putOk : Bool)
    (h : putOk = false) :
    500 ≤ (storeTime now id putOk).status ∧
    (storeTime now id putOk).status < 600 ∧
    (storeTime now id putOk).errorBody.isSome = true ∧
    (storeTime now id putOk).scheduledBroadcast = none := by
  subst h
  refine ⟨?_, ?_, rfl, rfl⟩ <;> simp [storeTime]

/-- Witness for C2 at a concrete input. -/
theorem storeTime_failure_no_broadcast_witness :
    (false = false) ∧
    (500 ≤ (storeTime "2024-01-01T00:00:00.000Z" "id-2" false).status ∧
    (storeTime "2024-01-01T00:00:00.000Z" "id-2" false).status < 600 ∧
    (storeTime "2024-01-01T00:00:00.000Z" "id-2" false).errorBody.isSome = true ∧
    (storeTime "2024-01-01T00:00:00.000Z" "id-2" false).scheduledBroadcast = none) :=
  ⟨rfl, storeTime_failure_no_broadcast "2024-01-01T00:00:00.000Z" "id-2" false rfl⟩

/-- Outcome of the blocking `s3.headObject` existence check: the object
exists, the check failed with a NotFound error code, or it failed with any
other error. -/
inductive HeadOutcome
  | found
  | notFound
  | otherError
deriving DecidableEq, Repr

/-- JS truthiness of an optional string (absent and empty are falsy). -/
def truthyStr (s : Option String) : Bool :=
  match s with
  | none => false
  | some v => v ≠ ""

/-- JS truthiness of an optional key (absent and empty are falsy). -/
def truthyKey (k : Option Key) : Bool :=
  match k with
  | none => false
  | some v => v ≠ []

/-- Observable outcome of one GET /get-upload-url request. -/
structure UploadUrlResp where
  status : Nat
  uploadUrl : Option String
  fileName : Option Key
  errorBody : Option String
deriving DecidableEq, Repr

/-- The S3 key chosen by GET /get-upload-url (src/backend/index.js lines
146-157): whether or not the `fileName` query hint is present and ends (case
insensitively) in ".nii.gz", the key is a fresh uuid with the ".nii.gz"
suffix appended; the non-matching branch only adds a warning log. -/
def getUploadUrlKey (uuid : Key) (hint : Option Key) : Key :=
  if truthyKey hint ∧ niiGz <:+ ((hint.getD []).map Char.toLower) then
    uuid ++ niiGz
  else
    uuid ++ niiGz

/-- GET /get-upload-url (src/backend/index.js lines 144-176): pick the key,
then request a presigned putObject URL; on signer error respond 500 with an
error body, otherwise respond with the URL and the chosen key. `sign` is the
oracle for `s3.getSignedUrl`, none meaning the callback received an error. -/
def getUploadUrl (uuid : Key) (hint : Option Key) (sign : Key → Option String) :
    UploadUrlResp :=
  let fileName := getUploadUrlKey uuid hint
  match sign fileName with
  | none =>
    { status := 500, uploadUrl := none, fileName := none
      errorBody := some "Failed to create signed URL" }
  | some url =>
    { status := 200, uploadUrl := some url, fileName := some fileName
      errorBody := none }

/-- C3: For every GET /get-upload-url call, with any fileName hint or none,
the fileName in the response is the freshly generated uuid with the fixed
".nii.gz" suffix appended, hence always ends in ".nii.gz", regardless of the
hint. -/
theorem getUploadUrl_fixed_suffix (uuid : Key) (hint : Option Key)
    (sign : Key → Option String) (url : String)
    (h : sign (getUploadUrlKey uuid hint) = some url) :
    (getUploadUrl uuid hint sign).fileName = some (uuid ++ niiGz) ∧
    (∀ f, (getUploadUrl uuid hint sign).fileName = some f → niiGz <:+ f) := by
  have hkey : getUploadUrlKey uuid hint = uuid ++ niiGz := by
    unfold getUploadUrlKey
    exact ite_self _
  rw [hkey] at h
  constructor
  · simp [getUploadUrl, hkey, h]
  · intro f hf
    simp [getUploadUrl, hkey, h] at hf
    rw [← hf]
    exact List.suffix_append uuid niiGz

/-- Witness for C3: a hint with a non-matching extension still yields a key
ending in ".nii.gz". -/
theorem getUploadUrl_fixed_suffix_witness :
    ((fun _ : Key => some "signed-url") ("u-1".toList ++ niiGz) = some "signed-url") ∧
    ((getUploadUrl ("u-1".toList) (some "photo.png".toList)
        (fun _ => some "signed-url")).fileName = some ("u-1".toList ++ niiGz) ∧
    (∀ f, (getUploadUrl ("u-1".toList) (some "photo.png".toList)
        (fun _ => some "signed-url")).fileName = some f → niiGz <:+ f)) :=
  ⟨rfl, getUploadUrl_fixed_suffix "u-1".toList (some "photo.png".toList)
    (fun _ => some "signed-url") "signed-url" rfl⟩

/-- Observable outcome of one GET /get-image-url request: HTTP status, the
returned presigned URL if any, the error body if any, and whether the handler
reached the `getSignedUrl` call at all. -/
structure ImageUrlResp where
  status : Nat
  url : Option String
  errorBody : Option String
  signAttempted : Bool
deriving DecidableEq, Repr

/-- GET /get-image-url (src/backend/index.js lines 92-134): 400 when the key
is missing; then a blocking `headObject` existence check — NotFound error
gives 404 with an error body, any other error gives 500; only when the check
succeeds is `getSignedUrl getObject` called, answering 500 on signer error or
the URL on success. `head` and `sign` are the provider oracles. -/
def getImageUrl (key : Option Key) (head : HeadOutcome)
    (sign : Key → Option String) : ImageUrlResp :=
  match key with
  | none =>
    { status := 400, url := none, errorBody := some "Image key is required."
      signAttempted := false }
  | some k =>
    if k = [] then
      { status := 400, url := none, errorBody := some "Image key is required."
        signAttempted := false }
    else
      match head with
      | .notFound =>
        { status := 404, url := none, errorBody := some "Object not found."
          signAttempted := false }
      | .otherError =>
        { status := 500, url := none
          errorBody := some "Failed to verify object existence."
          signAttempted := false }
      | .found =>
        match sign k with
        | none =>
          { status := 500, url := none
            errorBody := some "Failed to create signed URL."
            signAttempted := true }
        | some url =>
          { status := 200, url := some url, errorBody := none
            signAttempted := true }

/-- C4: For every GET /get-image-url call with a (nonempty) key: if the
existence check reports NotFound the response is 404 with an error body and
no presigned URL is issued (the signer is never reached); if the check fails
for any other reason the response is 5xx; the signer is reached only when the
check succeeds, and then a successful signing is returned as the URL. -/
theorem getImageUrl_existence_gate (k : Key) (head : HeadOutcome)
    (sign : Key → Option String) (hk : k ≠ []) :
    (head = .notFound →
      (getImageUrl (some k) head sign).status = 404 ∧
      (getImageUrl (some k) head sign).errorBody.isSome = true ∧
      (getImageUrl (some k) head sign).url = none ∧
      (getImageUrl (some k) head sign).signAttempted = false) ∧
    (head = .otherError →
      500 ≤ (getImageUrl (some k) head sign).status ∧
      (getImageUrl (some k) head sign).status < 600 ∧
      (getImageUrl (some k) head sign).url = none) ∧
    ((getImageUrl (some k) head sign).signAttempted = true → head = .found) ∧
    (head = .found → (getImageUrl (some k) head sign).signAttempted = true ∧
      (∀ url, sign k = some url → (getImageUrl (some k) head sign).url = some url)) := by
  refine ⟨?_, ?_, ?_, ?_⟩
  · rintro rfl
    simp [getImageUrl, hk]
  · rintro rfl
    simp [getImageUrl, hk]
  · intro hs
    cases head with
    | found => rfl
    | notFound => simp [getImageUrl, hk] at hs
    | otherError => simp [getImageUrl, hk] at hs
  · rintro rfl
    constructor
    · simp only [getImageUrl, if_neg hk]
      cases hsk : sign k <;> simp
    · intro url hurl
      simp [getImageUrl, hk, hurl]

/-- Witness for C4 at a concrete nonempty key. -/
theorem getImageUrl_existence_gate_witness :
    ("a.nii.gz".toList ≠ ([] : Key)) ∧
    ((HeadOutcome.notFound = .notFound →
      (getImageUrl (some "a.nii.gz".toList) .notFound (fun _ => some "u")).status = 404 ∧
      (getImageUrl (some "a.nii.gz".toList) .notFound (fun _ => some "u")).errorBody.isSome = true ∧
      (getImageUrl (some "a.nii.gz".toList) .notFound (fun _ => some "u")).url = none ∧
      (getImageUrl (some "a.nii.gz".toList) .notFound (fun _ => some "u")).signAttempted = false) ∧
    (HeadOutcome.notFound = .otherError →
      500 ≤ (getImageUrl (some "a.nii.gz".toList) .notFound (fun _ => some "u")).status ∧
      (getImageUrl (some "a.nii.gz".toList) .notFound (fun _ => some "u")).status < 600 ∧
      (getImageUrl (some "a.nii.gz".toList) .notFound (fun _ => some "u")).url = none) ∧
    ((getImageUrl (some "a.nii.gz".toList) .notFound (fun _ => some "u")).signAttempted = true →
      HeadOutcome.notFound = .found) ∧
    (HeadOutcome.notFound = .found →
      (getImageUrl (some "a.nii.gz".toList) .notFound (fun _ => some "u")).signAttempted = true ∧
      (∀ url, (fun _ : Key => some "u") "a.nii.gz".toList = some url →
        (getImageUrl (some "a.nii.gz".toList) .notFound (fun _ => some "u")).url = some url))) :=
  ⟨by decide, getImageUrl_existence_gate "a.nii.gz".toList .notFound
    (fun _ => some "u") (by decide)⟩

/-- Observable outcome of one GET /get-blurred-upload-url request:
`signedPutKey` is the Key field of the putObject parameters handed to the
signer (none when the handler answered 400 before building them). -/
structure BlurredUploadResp where
  status : Nat
  uploadUrl : Option String
  blurredKey : Option Key
  signedPutKey : Option Key
  errorBody : Option String
deriving DecidableEq, Repr

/-- GET /get-blurred-upload-url (src/backend/index.js lines 179-205): 400
when originalKey is missing; otherwise derive blurredKey by the anchored
regex replace of the terminal ".nii.gz" with "_blurred.nii.gz", build the
putObject parameters with that key and request a presigned URL; 500 on signer
error, otherwise answer the URL and blurredKey. -/
def getBlurredUploadUrl (originalKey : Option Key) (sign : Key → Option String) :
    BlurredUploadResp :=
  if truthyKey originalKey = false then
    { status := 400, uploadUrl := none, blurredKey := none, signedPutKey := none
      errorBody := some "originalKey is required." }
  else
    let blurredKey := replaceNiiGzEnd (originalKey.getD []) blurredRepl
    match sign blurredKey with
    | none =>
      { status := 500, uploadUrl := none, blurredKey := none
        signedPutKey := some blurredKey
        errorBody := some "Failed to create signed URL for blurred image." }
    | some url =>
      { status := 200, uploadUrl := some url, blurredKey := some blurredKey
        signedPutKey := some blurredKey, errorBody := none }

/-- The anchored replace on a key that ends in ".nii.gz" yields exactly the
stem followed by "_blurred.nii.gz". -/
theorem replaceNiiGzEnd_append (stem repl : Key) :
    replaceNiiGzEnd (stem ++ niiGz) repl = stem ++ repl := by
  unfold replaceNiiGzEnd
  rw [if_pos (List.suffix_append stem niiGz)]
  rw [List.length_append, Nat.add_sub_cancel, List.take_left]

/-- C5: For every originalKey ending in ".nii.gz" passed to
GET /get-blurred-upload-url, the blurredKey returned, which is also the key
of the presigned PUT target, is obtained by replacing that terminal ".nii.gz"
suffix with "_blurred.nii.gz" and nothing else: it is exactly the stem
followed by "_blurred.nii.gz". -/
theorem getBlurredUploadUrl_suffix_rule (stem : Key) (sign : Key → Option String)
    (url : String) (h : sign (stem ++ blurredRepl) = some url) :
    (getBlurredUploadUrl (some (stem ++ niiGz)) sign).blurredKey =
      some (stem ++ blurredRepl) ∧
    (getBlurredUploadUrl (some (stem ++ niiGz)) sign).signedPutKey =
      some (stem ++ blurredRepl) ∧
    (getBlurredUploadUrl (some (stem ++ niiGz)) sign).uploadUrl = some url := by
  have hne : stem ++ niiGz ≠ [] := by
    simp [niiGz]
  have htr : truthyKey (some (stem ++ niiGz)) = true := by
    simp [truthyKey, hne]
  unfold getBlurredUploadUrl
  rw [htr]
  simp only [Bool.true_eq_false, if_false, Option.getD_some,
    replaceNiiGzEnd_append, h]
  exact ⟨trivial, trivial, trivial⟩

/-- Witness for C5 at a concrete key. -/
theorem getBlurredUploadUrl_suffix_rule_witness :
    ((fun _ : Key => some "put-url") ("scan-7".toList ++ blurredRepl) = some "put-url") ∧
    ((getBlurredUploadUrl (some ("scan-7".toList ++ niiGz))
        (fun _ => some "put-url")).blurredKey = some ("scan-7".toList ++ blurredRepl) ∧
    (getBlurredUploadUrl (some ("scan-7".toList ++ niiGz))
        (fun _ => some "put-url")).signedPutKey = some ("scan-7".toList ++ blurredRepl) ∧
    (getBlurredUploadUrl (some ("scan-7".toList ++ niiGz))
        (fun _ => some "put-url")).uploadUrl = some "put-url") :=
  ⟨rfl, getBlurredUploadUrl_suffix_rule "scan-7".toList (fun _ => some "put-url")
    "put-url" rfl⟩

/-- C10: For every nonempty originalKey that does not end in ".nii.gz", the
anchored replace does not match, so the blurredKey returned equals
originalKey itself and the presigned PUT parameters target the original
object's own key. -/
theorem getBlurredUploadUrl_non_matching_key_unchanged (k : Key)
    (sign : Key → Option String) (url : String)
    (hk : ¬ (niiGz <:+ k)) (hne : k ≠ []) (h : sign k = some url) :
    (getBlurredUploadUrl (some k) sign).blurredKey = some k ∧
    (getBlurredUploadUrl (some k) sign).signedPutKey = some k ∧
    (getBlurredUploadUrl (some k) sign).uploadUrl = some url := by
  have hrep : replaceNiiGzEnd k blurredRepl = k := by
    unfold replaceNiiGzEnd
    exact if_neg hk
  have htr : truthyKey (some k) = true := by
    simp [truthyKey, hne]
  unfold getBlurredUploadUrl
  rw [htr]
  simp only [Bool.true_eq_false, if_false, Option.getD_some, hrep, h]
  exact ⟨trivial, trivial, trivial⟩

/-- Witness for C10: the hint "photo.png" does not end in ".nii.gz", and the
presigned PUT target is "photo.png" itself. -/
theorem getBlurredUploadUrl_non_matching_key_unchanged_witness :
    (¬ (niiGz <:+ "photo.png".toList)) ∧ ("photo.png".toList ≠ ([] : Key)) ∧
    ((fun _ : Key => some "put-url") "photo.png".toList = some "put-url") ∧
    ((getBlurredUploadUrl (some "photo.png".toList)
        (fun _ => some "put-url")).blurredKey = some "photo.png".toList ∧
    (getBlurredUploadUrl (some "photo.png".toList)
        (fun _ => some "put-url")).signedPutKey = some "photo.png".toList ∧
    (getBlurredUploadUrl (some "photo.png".toList)
        (fun _ => some "put-url")).uploadUrl = some "put-url") :=
  ⟨by decide, by decide, rfl,
    getBlurredUploadUrl_non_matching_key_unchanged "photo.png".toList
      (fun _ => some "put-url") "put-url" (by decide) (by decide) rfl⟩

/-- Mutable state of the relay: the single registered worker reference
(`pythonSocket`, by socket id) and the set of live socket connections, the
latter maintained by the socket.io runtime. -/
structure RelayState where
  pythonSocket : Option Nat
  connected : List Nat
deriving DecidableEq, Repr

/-- Observable side effects of the socket handlers: an `emit` to one specific
socket (the blur-image dispatch), the `io.emit` broadcasts to every connected
peer, log lines, and a forcible close of a connection — the last never
produced by any handler, included so that its absence is expressible. -/
inductive Output
  | emitTo (target : Nat) (event : String) (originalKey : Key)
  | broadcastUploadError (message : String)
  | broadcastImageBlurred (blurredKey originalKey : Key)
  | broadcastProcessingError (originalKey : Option Key) (message : String)
  | logWarn (message : String)
  | logError (message : String)
  | closeConnection (target : Nat)
deriving DecidableEq, Repr

/-- The socket.io runtime adds a newly connected socket. -/
def onConnect (s : RelayState) (c : Nat) : RelayState :=
  { s with connected := c :: s.connected }

/-- The identify handler (src/backend/index.js lines 34-39): when the payload
role is "python-client", overwrite `pythonSocket` with this socket; any other
role leaves the state unchanged. No output, no authentication, no check for
an already registered worker, and no message to the replaced socket. -/
def onIdentify (s : RelayState) (c : Nat) (role : String) : RelayState :=
  if role = "python-client" then { s with pythonSocket := some c } else s

/-- The disconnect handler (src/backend/index.js lines 78-83) together with
the runtime removal of the socket: `pythonSocket` is nulled exactly when the
disconnecting socket is the one it currently references. -/
def onDisconnect (s : RelayState) (c : Nat) : RelayState :=
  let s1 : RelayState := { s with connected := s.connected.erase c }
  if s1.pythonSocket = some c then { s1 with pythonSocket := none } else s1

/-- Body of the 5000 ms `setTimeout` in the image-uploaded-to-s3 handler of
src/backend/index.js lines 50-74, run against the relay state at firing time:
on a successful headObject, dispatch blur-image to `pythonSocket` when set,
otherwise log a warning; a NotFound failure logs two error lines; any other
failure logs one. Nothing is broadcast on any path. -/
def uploadCheckFires (s : RelayState) (originalKey : Key) (head : HeadOutcome) :
    List Output :=
  match head with
  | .found =>
    match s.pythonSocket with
    | some w => [.emitTo w "blur-image" originalKey]
    | none => [.logWarn "No Python client connected. Image not sent for blurring."]
  | .notFound =>
    [.logError "Failed to verify or request blurring",
     .logError "File not found in S3 after delay. Cannot proceed with blurring."]
  | .otherError =>
    [.logError "Failed to verify or request blurring"]

/-- Body of the same delayed check in the refactored iteration
(src/unnamed/part_002 lines 90-115): a NotFound existence result is returned
as false rather than thrown, and there it logs an error and broadcasts an
upload-error event before returning; the found and other-failure paths match
the src/backend/index.js iteration. -/
def uploadCheckFiresV2 (s : RelayState) (originalKey : Key) (head : HeadOutcome) :
    List Output :=
  match head with
  | .found =>
    match s.pythonSocket with
    | some w => [.emitTo w "blur-image" originalKey]
    | none => [.logWarn "No Python client connected. Image not sent for blurring."]
  | .notFound =>
    [.logError "File not found in S3 after delay. Cannot proceed with blurring.",
     .broadcastUploadError "File not found in S3."]
  | .otherError =>
    [.logError "Failed to verify or request blurring"]

/-- True when the output list contains an upload-error broadcast. -/
def hasUploadErrorBroadcast (outs : List Output) : Bool :=
  outs.any fun o =>
    match o with
    | .broadcastUploadError _ => true
    | _ => false

/-- C6: registering a second worker connection replaces the first: after two
identify events with the worker role from distinct sockets c1 and c2, the
registered reference is c2; every subsequent blur-image dispatch, for any
existence-check outcome, targets c2 and never c1; and c1 is not disconnected
— the identify handler leaves the connection set unchanged and no output of
the dispatch closes any connection. -/
theorem worker_registration_replacement (s : RelayState) (c1 c2 : Nat)
    (key : Key) (hne : c1 ≠ c2) :
    (onIdentify (onIdentify s c1 "python-client") c2 "python-client").pythonSocket
      = some c2 ∧
    (∀ head t e k,
      Output.emitTo t e k ∈
        uploadCheckFires
          (onIdentify (onIdentify s c1 "python-client") c2 "python-client") key head →
      t = c2 ∧ t ≠ c1) ∧
    (∀ head c,
      Output.closeConnection c ∉
        uploadCheckFires
          (onIdentify (onIdentify s c1 "python-client") c2 "python-client") key head) ∧
    (onIdentify (onIdentify s c1 "python-client") c2 "python-client").connected
      = s.connected := by
  have hstate :
      onIdentify (onIdentify s c1 "python-client") c2 "python-client"
        = { s with pythonSocket := some c2 } := by
    simp [onIdentify]
  rw [hstate]
  refine ⟨rfl, ?_, ?_, rfl⟩
  · intro head t e k hmem
    cases head <;> simp [uploadCheckFires] at hmem
    exact ⟨hmem.1, hmem.1 ▸ fun hc => hne hc.symm⟩
  · intro head c
    cases head <;> simp [uploadCheckFires]

/-- Witness for C6 at concrete sockets 1 and 2. -/
theorem worker_registration_replacement_witness :
    ((1 : Nat) ≠ 2) ∧
    ((onIdentify (onIdentify ⟨none, [1, 2]⟩ 1 "python-client") 2 "python-client").pythonSocket
      = some 2 ∧
    (∀ head t e k,
      Output.emitTo t e k ∈
        uploadCheckFires
          (onIdentify (onIdentify ⟨none, [1, 2]⟩ 1 "python-client") 2 "python-client")
          ("scan.nii.gz".toList) head →
      t = 2 ∧ t ≠ 1) ∧
    (∀ head c,
      Output.closeConnection c ∉
        uploadCheckFires
          (onIdentify (onIdentify ⟨none, [1, 2]⟩ 1 "python-client") 2 "python-client")
          ("scan.nii.gz".toList) head) ∧
    (onIdentify (onIdentify ⟨none, [1, 2]⟩ 1 "python-client") 2 "python-client").connected
      = (⟨none, [1, 2]⟩ : RelayState).connected) :=
  ⟨by decide, worker_registration_replacement ⟨none, [1, 2]⟩ 1 2
    ("scan.nii.gz".toList) (by decide)⟩

/-- C7: on a disconnect event, the worker registration is cleared exactly
when the disconnecting socket is the currently registered worker; a
disconnect of any other socket leaves the registration unchanged. -/
theorem disconnect_clears_only_current_worker (s : RelayState) (c : Nat) :
    (s.pythonSocket = some c → (onDisconnect s c).pythonSocket = none) ∧
    (s.pythonSocket ≠ some c → (onDisconnect s c).pythonSocket = s.pythonSocket) := by
  constructor
  · intro h
    simp [onDisconnect, h]
  · intro h
    simp only [onDisconnect]
    rw [if_neg h]

/-- Witness for C7: socket 5 is the worker, so its disconnect clears the
registration while a disconnect of socket 7 leaves it in place. -/
theorem disconnect_clears_only_current_worker_witness :
    (((⟨some 5, [5, 7]⟩ : RelayState).pythonSocket = some 5 →
      (onDisconnect ⟨some 5, [5, 7]⟩ 5).pythonSocket = none) ∧
    ((⟨some 5, [5, 7]⟩ : RelayState).pythonSocket ≠ some 5 →
      (onDisconnect ⟨some 5, [5, 7]⟩ 5).pythonSocket
        = (⟨some 5, [5, 7]⟩ : RelayState).pythonSocket)) ∧
    (((⟨some 5, [5, 7]⟩ : RelayState).pythonSocket = some 7 →
      (onDisconnect ⟨some 5, [5, 7]⟩ 7).pythonSocket = none) ∧
    ((⟨some 5, [5, 7]⟩ : RelayState).pythonSocket ≠ some 7 →
      (onDisconnect ⟨some 5, [5, 7]⟩ 7).pythonSocket
        = (⟨some 5, [5, 7]⟩ : RelayState).pythonSocket)) :=
  ⟨disconnect_clears_only_current_worker ⟨some 5, [5, 7]⟩ 5,
   disconnect_clears_only_current_worker ⟨some 5, [5, 7]⟩ 7⟩

/-- Observable outcome of one POST /blurred-image-callback request. -/
structure CallbackResp where
  status : Nat
  bodyStatus : Option String
  errorBody : Option String
  broadcasts : List Output
deriving DecidableEq, Repr

/-- POST /blurred-image-callback (src/unnamed/part_003 lines 108-122): when
the body carries a truthy error field, broadcast processing-error and answer
200 with a body of status error; otherwise, when either originalKey or
blurredKey is missing (falsy), answer 400 with an error body and broadcast
nothing; otherwise broadcast image-blurred with both keys and answer 200. -/
def blurredImageCallback (originalKey blurredKey : Option Key)
    (error : Option String) : CallbackResp :=
  if truthyStr error then
    { status := 200, bodyStatus := some "error", errorBody := none
      broadcasts := [.broadcastProcessingError originalKey "Processing failed"] }
  else if truthyKey originalKey = false ∨ truthyKey blurredKey = false then
    { status := 400, bodyStatus := none
      errorBody := some "Missing originalKey or blurredKey in callback."
      broadcasts := [] }
  else
    { status := 200, bodyStatus := some "success", errorBody := none
      broadcasts := [.broadcastImageBlurred (blurredKey.getD []) (originalKey.getD [])] }

/-- C8 counterexample: a callback request with no error field and no keys is
answered 400, not 200, and triggers no broadcast, refuting the claim that
every request to this endpoint receives status 200 and that every error-free
callback triggers an image-blurred broadcast. -/
theorem blurredImageCallback_missing_keys_400 :
    (blurredImageCallback none none none).status = 400 ∧
    (blurredImageCallback none none none).status ≠ 200 ∧
    (blurredImageCallback none none none).broadcasts = [] := by
  refine ⟨rfl, ?_, rfl⟩
  decide

/-- C8 amended: every callback whose body reports a truthy error receives
200 and triggers a processing-error broadcast; every error-free callback
carrying both keys receives 200 and triggers an image-blurred broadcast; an
error-free callback missing either key receives 400 and triggers no
broadcast. -/
theorem blurredImageCallback_behavior (ok bk : Option Key) (err : Option String) :
    (truthyStr err = true →
      (blurredImageCallback ok bk err).status = 200 ∧
      (blurredImageCallback ok bk err).broadcasts
        = [.broadcastProcessingError ok "Processing failed"]) ∧
    (truthyStr err = false → truthyKey ok = true → truthyKey bk = true →
      (blurredImageCallback ok bk err).status = 200 ∧
      (blurredImageCallback ok bk err).broadcasts
        = [.broadcastImageBlurred (bk.getD []) (ok.getD [])]) ∧
    (truthyStr err = false → (truthyKey ok = false ∨ truthyKey bk = false) →
      (blurredImageCallback ok bk err).status = 400 ∧
      (blurredImageCallback ok bk err).broadcasts = []) := by
  refine ⟨?_, ?_, ?_⟩
  · intro he
    simp [blurredImageCallback, he]
  · intro he hok hbk
    simp [blurredImageCallback, he, hok, hbk]
  · intro he hmiss
    have hcond : (truthyKey ok = false ∨ truthyKey bk = false) = True := by
      simp [hmiss]
    simp [blurredImageCallback, he, hcond]

/-- Witness for C8's amended theorem: an error-bearing callback still gets
200 with a processing-error broadcast. -/
theorem blurredImageCallback_behavior_witness :
    ((truthyStr (some "boom") = true →
      (blurredImageCallback (some "a.nii.gz".toList) none (some "boom")).status = 200 ∧
      (blurredImageCallback (some "a.nii.gz".toList) none (some "boom")).broadcasts
        = [.broadcastProcessingError (some "a.nii.gz".toList) "Processing failed"]) ∧
    (truthyStr (some "boom") = false → truthyKey (some "a.nii.gz".toList) = true →
      truthyKey none = true →
      (blurredImageCallback (some "a.nii.gz".toList) none (some "boom")).status = 200 ∧
      (blurredImageCallback (some "a.nii.gz".toList) none (some "boom")).broadcasts
        = [.broadcastImageBlurred ((none : Option Key).getD [])
            ((some "a.nii.gz".toList).getD [])]) ∧
    (truthyStr (some "boom") = false →
      (truthyKey (some "a.nii.gz".toList) = false ∨ truthyKey (none : Option Key) = false) →
      (blurredImageCallback (some "a.nii.gz".toList) none (some "boom")).status = 400 ∧
      (blurredImageCallback (some "a.nii.gz".toList) none (some "boom")).broadcasts = [])) :=
  blurredImageCallback_behavior (some "a.nii.gz".toList) none (some "boom")

/-- C9 counterexample: with no worker registered and the existence check
reporting NotFound, the src/backend/index.js handler broadcasts no
upload-error event — its outputs are two error log lines only — refuting the
claim that an upload-error event is broadcast in that case. -/
theorem uploadCheck_notFound_no_broadcast :
    hasUploadErrorBroadcast
      (uploadCheckFires ⟨none, []⟩ ("abc.bin".toList) .notFound) = false ∧
    uploadCheckFires ⟨none, []⟩ ("abc.bin".toList) .notFound
      = [.logError "Failed to verify or request blurring",
         .logError "File not found in S3 after delay. Cannot proceed with blurring."] :=
  ⟨rfl, rfl⟩

/-- C9 amended: for every image-uploaded-to-s3 event received while no worker
is registered, after the fixed delay the existence check runs and no
blur-image dispatch occurs regardless of its outcome in either iteration;
when the object exists, a warning log is the only observable effect; when the
object does not exist, the refactored iteration (src/unnamed/part_002)
broadcasts an upload-error event, while the src/backend/index.js iteration
only logs errors and broadcasts nothing. -/
theorem uploadCheck_no_worker_behavior (s : RelayState) (key : Key)
    (h : s.pythonSocket = none) :
    (∀ head t e k, Output.emitTo t e k ∉ uploadCheckFires s key head) ∧
    (∀ head t e k, Output.emitTo t e k ∉ uploadCheckFiresV2 s key head) ∧
    uploadCheckFires s key .found
      = [.logWarn "No Python client connected. Image not sent for blurring."] ∧
    uploadCheckFiresV2 s key .found
      = [.logWarn "No Python client connected. Image not sent for blurring."] ∧
    hasUploadErrorBroadcast (uploadCheckFiresV2 s key .notFound) = true ∧
    hasUploadErrorBroadcast (uploadCheckFires s key .notFound) = false := by
  refine ⟨?_, ?_, ?_, ?_, ?_, ?_⟩
  · intro head t e k
    cases head <;> simp [uploadCheckFires, h]
  · intro head t e k
    cases head <;> simp [uploadCheckFiresV2, h]
  · simp [uploadCheckFires, h]
  · simp [uploadCheckFiresV2, h]
  · simp [uploadCheckFiresV2, hasUploadErrorBroadcast]
  · simp [uploadCheckFires, hasUploadErrorBroadcast]

/-- Witness for C9's amended theorem at a concrete worker-less state. -/
theorem uploadCheck_no_worker_behavior_witness :
    ((⟨none, [3]⟩ : RelayState).pythonSocket = none) ∧
    ((∀ head t e k,
        Output.emitTo t e k ∉ uploadCheckFires ⟨none, [3]⟩ ("abc.bin".toList) head) ∧
    (∀ head t e k,
        Output.emitTo t e k ∉ uploadCheckFiresV2 ⟨none, [3]⟩ ("abc.bin".toList) head) ∧
    uploadCheckFires ⟨none, [3]⟩ ("abc.bin".toList) .found
      = [.logWarn "No Python client connected. Image not sent for blurring."] ∧
    uploadCheckFiresV2 ⟨none, [3]⟩ ("abc.bin".toList) .found
      = [.logWarn "No Python client connected. Image not sent for blurring."] ∧
    hasUploadErrorBroadcast
      (uploadCheckFiresV2 ⟨none, [3]⟩ ("abc.bin".toList) .notFound) = true ∧
    hasUploadErrorBroadcast
      (uploadCheckFires ⟨none, [3]⟩ ("abc.bin".toList) .notFound) = false) :=
  ⟨rfl, uploadCheck_no_worker_behavior ⟨none, [3]⟩ ("abc.bin".toList) rfl⟩

end ShowTime
